import Mathlib

/-! Verification development for the session/proxy lifecycle manager of a
browser-based scraper (`scraper.py` / `uber_scraper.py`).

The definitions below are a shallow embedding of the source: Python
exceptions become an explicit error type, stateful methods become
state-passing functions on a `ScraperState` record, and all environment
interaction (HTTP responses, navigation outcomes, resolved egress IPs,
the filesystem) is supplied as input data, so every definition is
executable. -/

namespace Scraper

/-- Python exception classes the source raises or catches, with their
message payloads where the code supplies one. -/
inductive PyError where
  | webDriverError (msg : String)
  | timeoutError
  | valueError (msg : String)
  | indexError
  | fileNotFoundError (path : String)
  | otherError (msg : String)
  deriving DecidableEq, Repr

/-- Is the error the configuration-error kind (`ValueError` in the source)? -/
def PyError.isValueError : PyError → Bool
  | .valueError _ => true
  | _ => false

/-- The while-loop of the `retry` decorator (scraper.py lines 17-33),
indexed by `remaining = max_attempts - attempts` so the recursion is
structural.  `op n st` is the decorated call's n-th invocation on state
`st`; it returns the new state and either a normal return (`Except.ok`)
or a raised exception (`Except.error`).  The result records the final
state, the loop's outcome (`none` models the implicit `None` return when
the loop is never entered), and how many times `time.sleep(delay)` ran. -/
def retryLoop {σ E A : Type} (op : Nat → σ → σ × Except E A)
    (attempts sleeps : Nat) (s : σ) : Nat → σ × Option (Except E A) × Nat
  | 0 => (s, none, sleeps)
  | remaining + 1 =>
    match op attempts s with
    | (s', Except.ok a) => (s', some (Except.ok a), sleeps)
    | (s', Except.error e) =>
      if remaining = 0 then (s', some (Except.error e), sleeps)
      else retryLoop op (attempts + 1) (sleeps + 1) s' remaining

/-- `retry(max_attempts)(op)` applied to state `s`: enter the while-loop
with `attempts = 0` and no sleeps performed. -/
def retryRun {σ E A : Type} (op : Nat → σ → σ × Except E A)
    (maxAttempts : Nat) (s : σ) : σ × Option (Except E A) × Nat :=
  retryLoop op 0 0 s maxAttempts

/-- The retry wrapper specialised to a stateless operation, keyed only by
the attempt index. -/
def retryPure {E A : Type} (op : Nat → Except E A) (maxAttempts : Nat) :
    Option (Except E A) × Nat :=
  (retryRun (fun n u => (u, op n)) maxAttempts ()).2

/-- Python's `str.split(sep)` for a single-character separator, on the
character list: splits at every occurrence of `c`, keeping empty pieces,
and always yields at least one piece. -/
def splitOnChar (c : Char) : List Char → List (List Char)
  | [] => [[]]
  | x :: xs =>
    match splitOnChar c xs with
    | [] => [[x]]
    | y :: ys => if x = c then [] :: y :: ys else (x :: y) :: ys

/-- Python's `s.split(c)` on strings (structural, so it evaluates in the
kernel). -/
def pySplit (s : String) (c : Char) : List String :=
  (splitOnChar c s.toList).map (fun l => String.mk l)

/-- Python's `str.strip()` restricted to ASCII whitespace: drop leading
and trailing whitespace characters. -/
def pyStrip (s : String) : String :=
  String.mk (((s.toList.dropWhile Char.isWhitespace).reverse.dropWhile
    Char.isWhitespace).reverse)

/-- Does the character list start with the pattern? (helper for Python's
`pat in s` substring test). -/
def startsWithSeq : List Char → List Char → Bool
  | _, [] => true
  | [], _ :: _ => false
  | x :: xs, y :: ys => x == y && startsWithSeq xs ys

/-- Does the pattern occur as a contiguous subsequence? -/
def containsSeq (pat : List Char) : List Char → Bool
  | [] => startsWithSeq [] pat
  | x :: xs => startsWithSeq (x :: xs) pat || containsSeq pat xs

/-- Python's substring membership test `pat in s`. -/
def strContains (s pat : String) : Bool :=
  containsSeq pat.toList s.toList

/-- Outcome of the one outbound HTTP GET in `_get_real_ip`
(scraper.py lines 55-63): a 2xx response with a text body, a bad-status
response (`raise_for_status` raises an HTTPError, a RequestException),
or a network failure (`requests.get` raises a RequestException). -/
inductive HttpOutcome where
  | ok (body : String)
  | httpError
  | netError
  deriving DecidableEq, Repr

/-- The body of `_get_real_ip`: its internal try/except catches every
`requests.RequestException` and returns the sentinel `"Unknown"`; a
successful response returns the stripped body.  No exception ever
escapes to the `retry` decorator. -/
def getRealIpBody (out : HttpOutcome) : Except PyError String :=
  match out with
  | .ok body => .ok (pyStrip body)
  | .httpError => .ok "Unknown"
  | .netError => .ok "Unknown"

/-- `_get_real_ip` as deployed: the body wrapped in
`retry(max_attempts=3)`, with the state threading counting how many
times the body was invoked.  `outs n` is the HTTP outcome the network
would produce on the n-th invocation.  Result: (number of invocations,
loop outcome, number of sleeps). -/
def getRealIpRetried (outs : Nat → HttpOutcome) :
    Nat × Option (Except PyError String) × Nat :=
  retryRun (fun n count => (count + 1, getRealIpBody (outs n))) 3 0

/-- A parsed proxy credential: `host:port` or
`host:port:username:password` (the 4-field wire options build the URL
`http://f2:f3@f0:f1`, so fields 2 and 3 are the username and password). -/
inductive ProxyCredential where
  | hostPort (host port : String)
  | hostPortUserPass (host port username password : String)
  deriving DecidableEq, Repr

/-- The credential-parsing part of `_configure_proxy`
(scraper.py lines 124-153).  `proxy.split(":")` always yields at least
one field; with a single field the logging line
`print(f"... [{splitted_proxy[0]}:{splitted_proxy[1]}]")` raises an
`IndexError` before the arity check is reached; 2 fields parse as
host/port; 4 fields parse as host/port/username/password; any other
arity raises the configuration `ValueError`. -/
def parseProxy (proxy : String) : Except PyError ProxyCredential :=
  match pySplit proxy ':' with
  | [] => .error .indexError
  | [_] => .error .indexError
  | [host, port] => .ok (.hostPort host port)
  | [host, port, user, pw] => .ok (.hostPortUserPass host port user pw)
  | _ => .error (.valueError
      ("Invalid Proxy [\x27" ++ proxy ++ "\x27] encountered in the proxy list."))

/-- Outcome the browser produces for one `driver.get(url)` navigation:
success landing on `currentUrl`, a `TimeoutException`, or some other
`WebDriverException`. -/
inductive NavOutcome where
  | success (currentUrl : String)
  | timeout
  | driverError (msg : String)

/-- The mutable attributes of a `Scraper` instance that the claims
concern (scraper.py lines 44-53).  `driverGen` counts how many browser
instances have been constructed (modelling `current_driver`
replacement); `currentProxyIp` is the `current_proxy_ip` attribute set
by `_check_proxy_ip`. -/
structure ScraperState where
  realIp : String
  proxyList : List String
  numProxies : Nat
  proxyRotationThreshold : Nat
  currentProxyIndex : Nat
  retries : Nat
  numCalls : Nat
  driverGen : Nat
  currentProxyIp : Option String
  deriving DecidableEq, Repr

/-- `Scraper.__init__` up to (but not including) the trailing
`self.current_driver = self.get_driver()` call: `real_ip` is the result
of the `_get_real_ip` network call, the cursor, leak counter and call
counter start at zero, and no browser instance exists yet. -/
def initState (proxyList : List String) (threshold : Nat) (realIp : String) :
    ScraperState :=
  { realIp := realIp
    proxyList := proxyList
    numProxies := proxyList.length
    proxyRotationThreshold := threshold
    currentProxyIndex := 0
    retries := 0
    numCalls := 0
    driverGen := 0
    currentProxyIp := none }

/-- What `_check_proxy_ip` stores in `current_proxy_ip`: the text the
IP-echo page resolved to, or — when resolution raised — the real IP
itself (the except-branch of lines 156-163). -/
def resolveObserved (realIp : String) (observed : Option String) : String :=
  match observed with
  | some ip => ip
  | none => realIp

/-- `_check_proxy_ip` (scraper.py lines 155-171): store the observed
egress IP; if it equals the real IP, increment `retries` and raise —
`WebDriverException "IP leak detected"` while `retries` is at most the
pool size, `Exception "All proxies are down"` once it exceeds it;
otherwise return normally. -/
def checkProxyIpStep (observed : Option String) (s : ScraperState) :
    ScraperState × Except PyError Unit :=
  let cpip := resolveObserved s.realIp observed
  let s1 := { s with currentProxyIp := some cpip }
  if cpip == s.realIp then
    let s2 := { s1 with retries := s1.retries + 1 }
    (s2,
      if s2.retries ≤ s2.numProxies then
        Except.error (PyError.webDriverError "IP leak detected")
      else
        Except.error (PyError.otherError "All proxies are down"))
  else (s1, Except.ok ())

/-- Lines 125-126 of `_configure_proxy`: select `pool[cursor]` (`none`
models the impossible out-of-range `IndexError`) and advance
`cursor = (cursor + 1) % num_proxies`. -/
def nextProxySel (pool : List String) (numProxies idx : Nat) :
    Option String × Nat :=
  (pool[idx]?, (idx + 1) % numProxies)

/-- `_configure_proxy` on the scraper state: select the next raw
credential, advance the cursor, then parse the credential (whose
failures — `IndexError` for arity 1, `ValueError` otherwise — happen
after the cursor has already advanced). -/
def configureProxyStep (s : ScraperState) :
    ScraperState × Except PyError ProxyCredential :=
  match nextProxySel s.proxyList s.numProxies s.currentProxyIndex with
  | (none, _) => (s, Except.error PyError.indexError)
  | (some raw, idx') =>
    ({ s with currentProxyIndex := idx' }, parseProxy raw)

/-- One attempt of `get_driver` (scraper.py lines 86-122): with a
non-empty pool, run `_configure_proxy` (its exceptions propagate),
construct the browser instance, then run `_check_proxy_ip` against the
echo result `obs`; with an empty pool just construct the browser. -/
def getDriverAttempt (obs : Option String) (s : ScraperState) :
    ScraperState × Except PyError Unit :=
  if s.numProxies > 0 then
    match configureProxyStep s with
    | (s1, Except.error e) => (s1, Except.error e)
    | (s1, Except.ok _) =>
      let s2 := { s1 with driverGen := s1.driverGen + 1 }
      checkProxyIpStep obs s2
  else
    ({ s with driverGen := s.driverGen + 1 }, Except.ok ())

/-- `get_driver` as deployed: one attempt per invocation of the
`retry(max_attempts=3)` wrapper; `obs n` is the echo-resolved IP seen by
attempt n. -/
def getDriverRetried (obs : Nat → Option String) (s : ScraperState) :
    ScraperState × Option (Except PyError Unit) × Nat :=
  retryRun (fun n st => getDriverAttempt (obs n) st) 3 s

/-- The try-block of `web_get` (scraper.py lines 180-190): navigate,
restore cookies (`load_cookies` swallows its own errors), then raise the
soft-block `WebDriverException` when the landing URL matches the
CAPTCHA/interstitial pattern, else return `True`.  Timeouts and driver
failures surface as the corresponding exceptions. -/
def webGetTryBlock (out : NavOutcome) : Except PyError Bool :=
  match out with
  | NavOutcome.success url =>
    if strContains url "google.com/sorry" || strContains url "google.com/recaptcha" then
      Except.error (PyError.webDriverError "Google CAPTCHA encountered")
    else Except.ok true
  | NavOutcome.timeout => Except.error PyError.timeoutError
  | NavOutcome.driverError m => Except.error (PyError.webDriverError m)

/-- The except clauses of `web_get` (lines 191-196):
`except TimeoutException: return False` and
`except WebDriverException: return False`; any other exception
propagates. -/
def webGetHandle : Except PyError Bool → Except PyError Bool
  | Except.ok b => Except.ok b
  | Except.error PyError.timeoutError => Except.ok false
  | Except.error (PyError.webDriverError _) => Except.ok false
  | Except.error e => Except.error e

/-- One attempt of `web_get` (scraper.py lines 173-196): increment
`num_calls`; when the new count is a multiple of the rotation threshold,
replace the session via the retried `get_driver` (whose failure
propagates, since the rotation sits outside the try-block); then run the
try-block and the except clauses.  The `Bool` component records whether
the rotation branch was taken.  (The `none` arm is unreachable for
`max_attempts = 3`; it models the wrapper's implicit `None` return.) -/
def webGetAttempt (out : NavOutcome) (obs : Nat → Option String)
    (s : ScraperState) : ScraperState × Bool × Except PyError Bool :=
  let s1 := { s with numCalls := s.numCalls + 1 }
  if s1.numCalls % s1.proxyRotationThreshold == 0 then
    let d := getDriverRetried obs s1
    (d.1, true,
      match d.2.1 with
      | some (Except.ok _) => webGetHandle (webGetTryBlock out)
      | some (Except.error e) => Except.error e
      | none => Except.error (PyError.otherError "NoneType"))
  else
    (s1, false, webGetHandle (webGetTryBlock out))

/-- `web_get` as deployed: one attempt per invocation of the
`retry(max_attempts=3)` wrapper; `outs n` and `obs n` give the
navigation outcome and the per-rotation-attempt echo results of
invocation n. -/
def webGetRetried (outs : Nat → NavOutcome) (obs : Nat → Nat → Option String)
    (s : ScraperState) : ScraperState × Option (Except PyError Bool) × Nat :=
  retryRun (fun n st =>
    match webGetAttempt (outs n) (obs n) st with
    | (st', _, r) => (st', r)) 3 s

/-- N consecutive leak detections: iterate `_check_proxy_ip` with the
echo page resolving to the real IP each time. -/
def leakRun (s : ScraperState) : Nat → ScraperState × Except PyError Unit
  | 0 => (s, Except.ok ())
  | n + 1 => checkProxyIpStep (some (leakRun s n).1.realIp) (leakRun s n).1

/-- Cursor positions after n selection steps (lines 125-126). -/
def iterCursor (numProxies idx : Nat) : Nat → Nat
  | 0 => idx
  | n + 1 => iterCursor numProxies ((idx + 1) % numProxies) n

/-- The raw credentials produced by n consecutive selections starting at
cursor `idx`. -/
def selections (pool : List String) (numProxies idx : Nat) :
    Nat → List (Option String)
  | 0 => []
  | n + 1 =>
    (nextProxySel pool numProxies idx).1 ::
      selections pool numProxies (nextProxySel pool numProxies idx).2 n

/-- A top-level operation of a scraper lifetime that can touch the
state: a `web_get` navigation, a fresh `get_driver` session creation, or
a bare `_check_proxy_ip` verification. -/
inductive Event where
  | nav (outs : Nat → NavOutcome) (obs : Nat → Nat → Option String)
  | newSession (obs : Nat → Option String)
  | checkIp (obs : Option String)

/-- Apply one lifetime event to the state (results discarded). -/
def stepEvent (s : ScraperState) : Event → ScraperState
  | Event.nav outs obs => (webGetRetried outs obs s).1
  | Event.newSession obs => (getDriverRetried obs s).1
  | Event.checkIp obs => (checkProxyIpStep obs s).1

/-- Run a whole lifetime of events. -/
def runEvents : ScraperState → List Event → ScraperState
  | s, [] => s
  | s, e :: rest => runEvents (stepEvent s e) rest

/-- Concrete navigation outcome landing on a CAPTCHA interstitial. -/
def captchaOuts : Nat → NavOutcome :=
  fun _ => NavOutcome.success "https://www.google.com/sorry/index"

/-- A freshly constructed scraper with no proxies and the default
rotation threshold. -/
def cexState : ScraperState := initState [] 6 "203.0.113.7"

/-- A scraper whose cumulative leak count (3) already exceeds its pool
size (2). -/
def exhaustedState : ScraperState :=
  { initState ["h1:1", "h2:2"] 6 "198.51.100.9" with retries := 3 }

/-- A scraper (no proxies, threshold 6) that has performed five
navigation calls. -/
def fiveCallsState : ScraperState :=
  { initState [] 6 "203.0.113.7" with numCalls := 5, driverGen := 1 }

/-- A cookie as returned by `driver.get_cookies()`: a Python dict of
attribute names to values (keys unique by dict semantics). -/
abbrev Cookie := List (String × String)

/-- Python's `"expiry" in cookie` membership test. -/
def hasKey (c : Cookie) (k : String) : Bool :=
  c.any (fun kv => kv.1 == k)

/-- Python's `del cookie["expiry"]`: remove the expiry entry. -/
def delExpiry (c : Cookie) : Cookie :=
  c.filter (fun kv => kv.1 != "expiry")

/-- The per-cookie body of the `load_cookies` loop (scraper.py lines
207-210): `if "expiry" in cookie: del cookie["expiry"]`. -/
def stripExpiry (c : Cookie) : Cookie :=
  if hasKey c "expiry" then delExpiry c else c

/-- The `for cookie in cookies` loop of `load_cookies`: strip each
cookie and apply it to the driver in order; `applied` accumulates the
`add_cookie` calls already made. -/
def applyCookies (applied : List Cookie) : List Cookie → List Cookie
  | [] => applied
  | c :: rest => applyCookies (applied ++ [stripExpiry c]) rest

/-- `os.path.dirname` for POSIX paths: everything before the last slash,
with trailing slashes stripped unless the head is all slashes; a path
with no slash has the empty dirname. -/
def dirname (p : String) : String :=
  let cs := p.toList
  let i := cs.length - (cs.reverse.takeWhile (fun c => c != '/')).length
  let head := cs.take i
  if head.length > 0 && !(head.all (fun c => c == '/')) then
    String.mk ((head.reverse.dropWhile (fun c => c == '/')).reverse)
  else String.mk head

/-- The scraper's file world: the directories that exist and the cookie
files written so far. -/
structure FileSystem where
  dirs : List String
  files : List (String × List Cookie)
  deriving DecidableEq, Repr

/-- A file world with nothing in it yet (relative to the working
directory). -/
def emptyFS : FileSystem := { dirs := [], files := [] }

/-- Join path components with slashes. -/
def joinSlash : List String → String
  | [] => ""
  | [p] => p
  | p :: ps => p ++ "/" ++ joinSlash ps

/-- Every ancestor directory of a path, shortest first — what
`os.makedirs` creates on the way down. -/
def pathPrefixes (name : String) : List String :=
  let parts := pySplit name '/'
  (List.range parts.length).map (fun i => joinSlash (parts.take (i + 1)))

/-- `os.makedirs(name, exist_ok=True)`: the empty path raises
`FileNotFoundError` (what `os.makedirs("")` does — `exist_ok` does not
suppress it because `""` is not an existing directory); any other path
gets itself and its ancestors created, idempotently. -/
def makedirs (fs : FileSystem) (name : String) : Except PyError FileSystem :=
  if name = "" then Except.error (PyError.fileNotFoundError "")
  else Except.ok { fs with dirs := fs.dirs ++ pathPrefixes name }

/-- `save_cookies` (scraper.py lines 198-201):
`os.makedirs(os.path.dirname(path), exist_ok=True)`, then pickle the
driver's current cookie list to `path`, overwriting any existing
file. -/
def saveCookies (fs : FileSystem) (path : String)
    (driverCookies : List Cookie) : Except PyError FileSystem :=
  match makedirs fs (dirname path) with
  | Except.error e => Except.error e
  | Except.ok fs1 =>
    Except.ok { fs1 with
      files := (path, driverCookies) :: fs1.files.filter (fun kv => kv.1 != path) }

/-- Open and unpickle a cookie file (`none` models the
`FileNotFoundError` branch). -/
def readFile (fs : FileSystem) (path : String) : Option (List Cookie) :=
  (fs.files.find? (fun kv => kv.1 == path)).map (fun kv => kv.2)

/-- `load_cookies` (scraper.py lines 203-217): unpickle the list at
`path` and apply each cookie, expiry-stripped, to the driver; a missing
file is non-fatal and applies nothing.  Returns the list of `add_cookie`
calls made. -/
def loadCookies (fs : FileSystem) (path : String) : List Cookie :=
  match readFile fs path with
  | none => []
  | some cookies => applyCookies [] cookies

/-- A concrete cookie set: one cookie with an expiry attribute, one
without. -/
def wcookies : List Cookie :=
  [[("name", "sid"), ("value", "abc123"), ("expiry", "1699999999")],
   [("name", "token"), ("value", "xyz")]]

/-- The file world produced by saving `wcookies` to
`"data/uber_cookies.pkl"` in an empty world. -/
def wfsAfter : FileSystem :=
  { dirs := ["data"], files := [("data/uber_cookies.pkl", wcookies)] }

end Scraper

namespace Scraper

/-- C6: with `max_attempts = 3`, an operation failing on attempts 1 and 2
but succeeding on attempt 3 makes `retry` return the attempt-3 result
after exactly two sleeps, and an operation failing on all 3 attempts makes
`retry` re-raise the third failure (also after two sleeps). -/
theorem retry_policy_three_attempts {E A : Type} (op : Nat → Except E A) :
    (∀ (e0 e1 : E) (a : A), op 0 = .error e0 → op 1 = .error e1 → op 2 = .ok a →
      retryPure op 3 = (some (.ok a), 2)) ∧
    (∀ (e0 e1 e2 : E), op 0 = .error e0 → op 1 = .error e1 → op 2 = .error e2 →
      retryPure op 3 = (some (.error e2), 2)) := by
  constructor
  · intro e0 e1 a h0 h1 h2
    simp [retryPure, retryRun, retryLoop, h0, h1, h2]
  · intro e0 e1 e2 h0 h1 h2
    simp [retryPure, retryRun, retryLoop, h0, h1, h2]

/-- Witness for C6 at a concrete operation: fails with error `n` on
attempts 0 and 1, succeeds with 42 on attempt 2; and an operation failing
on every attempt. -/
theorem retry_policy_three_attempts_witness :
    retryPure (fun n => if n < 2 then Except.error n else Except.ok 42) 3
      = (some (Except.ok 42), 2) ∧
    retryPure (fun n => (Except.error n : Except Nat Unit)) 3
      = (some (Except.error 2), 2) :=
  ⟨(retry_policy_three_attempts (fun n => if n < 2 then Except.error n else Except.ok 42)).1
      0 1 42 rfl rfl rfl,
   (retry_policy_three_attempts (fun n => (Except.error n : Except Nat Unit))).2
      0 1 2 rfl rfl rfl⟩

/-- C2 counterexample: when every attempt of the IP-echo GET hits a
network failure, `_get_real_ip` returns the sentinel `"Unknown"` after a
single invocation of its body and zero inter-attempt sleeps — not, as
claimed, only after all 3 attempts have failed with a delay in between
(which would be 3 invocations and 2 sleeps). -/
theorem get_real_ip_counterexample :
    getRealIpRetried (fun _ => HttpOutcome.netError)
      = (1, some (Except.ok "Unknown"), 0) ∧
    ¬ ((getRealIpRetried (fun _ => HttpOutcome.netError)).1 = 3 ∧
       (getRealIpRetried (fun _ => HttpOutcome.netError)).2.2 = 2) := by
  constructor
  · rfl
  · decide

/-- C2 amended: `_get_real_ip` catches the network failure inside its own
body and immediately returns the sentinel `"Unknown"` on the very first
failed attempt; the surrounding `retry` wrapper observes a normal return,
so it performs no re-invocation and no delay. -/
theorem get_real_ip_first_failure_sentinel (outs : Nat → HttpOutcome)
    (h : outs 0 = HttpOutcome.netError ∨ outs 0 = HttpOutcome.httpError) :
    getRealIpRetried outs = (1, some (Except.ok "Unknown"), 0) := by
  rcases h with h | h <;>
    simp [getRealIpRetried, retryRun, retryLoop, getRealIpBody, h]

/-- Witness for the amended C2 at the concrete all-failures outcome. -/
theorem get_real_ip_first_failure_sentinel_witness :
    getRealIpRetried (fun _ => HttpOutcome.netError)
      = (1, some (Except.ok "Unknown"), 0) :=
  get_real_ip_first_failure_sentinel (fun _ => HttpOutcome.netError) (Or.inl rfl)

/-- C3 counterexample: a raw credential with a single colon-delimited
field makes `_configure_proxy` raise `IndexError` (from the logging line
indexing field 2), which is not the configuration-error kind
(`ValueError`). -/
theorem proxy_parse_one_field_counterexample :
    parseProxy "10.0.0.1" = Except.error PyError.indexError ∧
    PyError.isValueError PyError.indexError = false := by
  constructor
  · rfl
  · rfl

/-- C3 amended: 2 colon-delimited fields parse to host/port; 4 fields
parse to host/port/username/password; 3 fields or 5-or-more fields raise
the configuration `ValueError`; but exactly 1 field raises `IndexError`
(the logging line indexes the second field before the arity check runs),
not the configuration error. -/
theorem proxy_parse_arity (raw : String) :
    (∀ h p, pySplit raw ':' = [h, p] →
      parseProxy raw = Except.ok (ProxyCredential.hostPort h p)) ∧
    (∀ h p u w, pySplit raw ':' = [h, p, u, w] →
      parseProxy raw = Except.ok (ProxyCredential.hostPortUserPass h p u w)) ∧
    (∀ f, pySplit raw ':' = [f] →
      parseProxy raw = Except.error PyError.indexError) ∧
    ((pySplit raw ':').length = 3 ∨ 5 ≤ (pySplit raw ':').length →
      parseProxy raw = Except.error (PyError.valueError
        ("Invalid Proxy [\x27" ++ raw ++ "\x27] encountered in the proxy list."))) := by
  refine ⟨?_, ?_, ?_, ?_⟩
  · intro h p hs
    unfold parseProxy
    rw [hs]
  · intro h p u w hs
    unfold parseProxy
    rw [hs]
  · intro f hs
    unfold parseProxy
    rw [hs]
  · intro hlen
    rcases hlen with h3 | h5
    · rcases List.length_eq_three.mp h3 with ⟨a, b, c, hs⟩
      unfold parseProxy
      rw [hs]
    · rcases hfs : pySplit raw ':' with _ | ⟨a, tl⟩
      · rw [hfs] at h5; simp at h5
      · rcases tl with _ | ⟨b, tl⟩
        · rw [hfs] at h5; simp at h5
        · rcases tl with _ | ⟨c, tl⟩
          · rw [hfs] at h5; simp at h5
          · rcases tl with _ | ⟨d, tl⟩
            · rw [hfs] at h5; simp at h5
            · rcases tl with _ | ⟨e, tl⟩
              · rw [hfs] at h5; simp at h5
              · unfold parseProxy
                rw [hfs]

/-- Witness for the amended C3 at concrete raw credentials of arity 2,
4, 1 and 3. -/
theorem proxy_parse_arity_witness :
    parseProxy "10.0.0.1:8080" = Except.ok (ProxyCredential.hostPort "10.0.0.1" "8080") ∧
    parseProxy "10.0.0.1:8080:alice:pw"
      = Except.ok (ProxyCredential.hostPortUserPass "10.0.0.1" "8080" "alice" "pw") ∧
    parseProxy "10-0-0-1" = Except.error PyError.indexError ∧
    parseProxy "10.0.0.1:8080:alice" = Except.error (PyError.valueError
      ("Invalid Proxy [\x27" ++ "10.0.0.1:8080:alice" ++ "\x27] encountered in the proxy list.")) :=
  ⟨(proxy_parse_arity "10.0.0.1:8080").1 "10.0.0.1" "8080" rfl,
   (proxy_parse_arity "10.0.0.1:8080:alice:pw").2.1 "10.0.0.1" "8080" "alice" "pw" rfl,
   (proxy_parse_arity "10-0-0-1").2.2.1 "10-0-0-1" rfl,
   (proxy_parse_arity "10.0.0.1:8080:alice").2.2.2 (Or.inl rfl)⟩

/-- Helper: n consecutive leak detections add exactly n to the leak
counter and leave the real IP and the pool size untouched. -/
theorem leakRun_fields (s : ScraperState) (n : Nat) :
    (leakRun s n).1.retries = s.retries + n ∧
    (leakRun s n).1.realIp = s.realIp ∧
    (leakRun s n).1.numProxies = s.numProxies := by
  induction n with
  | zero => simp [leakRun]
  | succ n ih =>
    obtain ⟨hr, hip, hnp⟩ := ih
    refine ⟨?_, ?_, ?_⟩
    all_goals simp [leakRun, checkProxyIpStep, resolveObserved, hr, hip, hnp]
    all_goals omega

/-- C5: from a fresh leak counter, each detection (observed egress IP
equal to the real IP) increments the counter, the Nth consecutive
detection raises the recoverable `WebDriverException "IP leak detected"`
while N is at most the pool size P, and raises the fatal
`Exception "All proxies are down"` beyond that (in particular at the
(P+1)th detection). -/
theorem leak_detection (s : ScraperState) (N : Nat) (h0 : s.retries = 0)
    (h1 : 1 ≤ N) :
    (leakRun s N).1.retries = N ∧
    ((leakRun s N).2 = if N ≤ s.numProxies
      then Except.error (PyError.webDriverError "IP leak detected")
      else Except.error (PyError.otherError "All proxies are down")) ∧
    (∀ (t : ScraperState) (obs : Option String),
      resolveObserved t.realIp obs = t.realIp →
      (checkProxyIpStep obs t).1.retries = t.retries + 1) := by
  refine ⟨?_, ?_, ?_⟩
  · have h := (leakRun_fields s N).1
    omega
  · obtain ⟨m, rfl⟩ : ∃ m, N = m + 1 := ⟨N - 1, by omega⟩
    obtain ⟨hr, hip, hnp⟩ := leakRun_fields s m
    rw [leakRun]
    simp [checkProxyIpStep, resolveObserved, hr, hip, hnp, h0]
  · intro t obs h
    simp [checkProxyIpStep, h]

/-- Witness for C5 with a pool of size 2: the 2nd consecutive detection
is the recoverable leak signal, the 3rd is the fatal exhaustion
signal. -/
theorem leak_detection_witness :
    (leakRun (initState ["h1:1", "h2:2"] 6 "9.9.9.9") 2).1.retries = 2 ∧
    (leakRun (initState ["h1:1", "h2:2"] 6 "9.9.9.9") 2).2
      = Except.error (PyError.webDriverError "IP leak detected") ∧
    (leakRun (initState ["h1:1", "h2:2"] 6 "9.9.9.9") 3).2
      = Except.error (PyError.otherError "All proxies are down") := by
  refine ⟨(leak_detection (initState ["h1:1", "h2:2"] 6 "9.9.9.9") 2 rfl
    (by decide)).1, ?_, ?_⟩
  · have h := (leak_detection (initState ["h1:1", "h2:2"] 6 "9.9.9.9") 2 rfl
      (by decide)).2.1
    simpa [initState] using h
  · have h := (leak_detection (initState ["h1:1", "h2:2"] 6 "9.9.9.9") 3 rfl
      (by decide)).2.1
    simpa [initState] using h

/-- Helper: n cursor-advance steps from a cursor below the pool size
land on `(idx + n) % K`. -/
theorem iterCursor_eq (K : Nat) :
    ∀ (n idx : Nat), idx < K → iterCursor K idx n = (idx + n) % K := by
  intro n
  induction n with
  | zero =>
    intro idx hidx
    simp [iterCursor, Nat.mod_eq_of_lt hidx]
  | succ n ih =>
    intro idx hidx
    have hK : 0 < K := Nat.zero_lt_of_lt hidx
    rw [iterCursor, ih ((idx + 1) % K) (Nat.mod_lt _ hK), Nat.mod_add_mod]
    congr 1
    omega

/-- Helper: as long as the cursor does not wrap, consecutive selections
list a contiguous slice of the pool. -/
theorem selections_no_wrap (pool : List String) :
    ∀ (n idx : Nat), idx + n ≤ pool.length →
      selections pool pool.length idx n = ((pool.drop idx).take n).map some := by
  intro n
  induction n with
  | zero => intro idx h; simp [selections]
  | succ n ih =>
    intro idx h
    have hidx : idx < pool.length := by omega
    have hhead : pool[idx]? = some pool[idx] := List.getElem?_eq_getElem hidx
    rw [selections, List.drop_eq_getElem_cons hidx]
    simp only [nextProxySel, hhead, List.take_succ_cons, List.map_cons]
    congr 1
    cases n with
    | zero => simp [selections]
    | succ m =>
      have h1 : idx + 1 < pool.length := by omega
      rw [Nat.mod_eq_of_lt h1]
      exact ih (idx + 1) (by omega)

/-- Helper: selections split along the cursor trajectory. -/
theorem selections_append (pool : List String) (K : Nat) :
    ∀ (n m idx : Nat),
      selections pool K idx (n + m)
        = selections pool K idx n ++ selections pool K (iterCursor K idx n) m := by
  intro n
  induction n with
  | zero => intro m idx; simp [selections, iterCursor]
  | succ n ih =>
    intro m idx
    have hadd : n + 1 + m = (n + m) + 1 := by omega
    rw [hadd, selections, selections]
    simp only [nextProxySel]
    rw [ih m ((idx + 1) % K), iterCursor]
    simp

/-- C7: with a pool of size K and the cursor at 0, K consecutive
selections return each credential exactly once in pool order, and the
(K+1)th selection returns the first credential again. -/
theorem round_robin (pool : List String) (K : Nat) (hK : pool.length = K)
    (hpos : 0 < K) :
    selections pool K 0 K = pool.map some ∧
    selections pool K 0 (K + 1) = pool.map some ++ [pool[0]?] := by
  subst hK
  have hfull : selections pool pool.length 0 pool.length
      = ((pool.drop 0).take pool.length).map some :=
    selections_no_wrap pool pool.length 0 (by omega)
  rw [List.drop_zero, List.take_length] at hfull
  refine ⟨hfull, ?_⟩
  rw [selections_append pool pool.length pool.length 1 0, hfull]
  have hc : iterCursor pool.length 0 pool.length = 0 := by
    rw [iterCursor_eq pool.length pool.length 0 hpos]
    simp
  rw [hc]
  simp [selections, nextProxySel]

/-- Witness for C7 with a concrete pool of size 3. -/
theorem round_robin_witness :
    selections ["a:1", "b:2", "c:3"] 3 0 3
      = [some "a:1", some "b:2", some "c:3"] ∧
    selections ["a:1", "b:2", "c:3"] 3 0 4
      = [some "a:1", some "b:2", some "c:3", some "a:1"] := by
  have h := round_robin ["a:1", "b:2", "c:3"] 3 rfl (by decide)
  exact ⟨h.1, by simpa using h.2⟩

/-- C8: a `web_get` call takes the session-replacement branch exactly
when its call index (the incremented `num_calls`, always at least 1) is
a multiple of the rotation threshold; when it does, the state is the one
produced by the retried Session Factory (`get_driver`), and when it does
not, the state change is the call-counter increment alone. -/
theorem rotation_threshold (out : NavOutcome) (obs : Nat → Option String)
    (s : ScraperState) :
    ((webGetAttempt out obs s).2.1 = true ↔
      s.proxyRotationThreshold ∣ (s.numCalls + 1)) ∧
    ((webGetAttempt out obs s).2.1 = true →
      (webGetAttempt out obs s).1
        = (getDriverRetried obs { s with numCalls := s.numCalls + 1 }).1) ∧
    ((webGetAttempt out obs s).2.1 = false →
      (webGetAttempt out obs s).1 = { s with numCalls := s.numCalls + 1 }) := by
  have hdvd : s.proxyRotationThreshold ∣ (s.numCalls + 1) ↔
      (s.numCalls + 1) % s.proxyRotationThreshold = 0 :=
    Nat.dvd_iff_mod_eq_zero
  by_cases hc : (s.numCalls + 1) % s.proxyRotationThreshold = 0
  · simp [webGetAttempt, hc, hdvd]
  · simp [webGetAttempt, hc, hdvd]

/-- Witness for C8: a scraper at five prior calls with threshold 6
rotates on its sixth call. -/
theorem rotation_threshold_witness :
    ((webGetAttempt (NavOutcome.success "https://m.uber.com/looking")
        (fun _ => none) fiveCallsState).2.1 = true ↔
      fiveCallsState.proxyRotationThreshold ∣ (fiveCallsState.numCalls + 1)) ∧
    ((webGetAttempt (NavOutcome.success "https://m.uber.com/looking")
        (fun _ => none) fiveCallsState).2.1 = true →
      (webGetAttempt (NavOutcome.success "https://m.uber.com/looking")
        (fun _ => none) fiveCallsState).1
        = (getDriverRetried (fun _ => none)
            { fiveCallsState with numCalls := fiveCallsState.numCalls + 1 }).1) ∧
    ((webGetAttempt (NavOutcome.success "https://m.uber.com/looking")
        (fun _ => none) fiveCallsState).2.1 = false →
      (webGetAttempt (NavOutcome.success "https://m.uber.com/looking")
        (fun _ => none) fiveCallsState).1
        = { fiveCallsState with numCalls := fiveCallsState.numCalls + 1 }) :=
  rotation_threshold (NavOutcome.success "https://m.uber.com/looking")
    (fun _ => none) fiveCallsState

/-- C1 counterexample: navigating a fresh scraper to a CAPTCHA
interstitial URL on every attempt makes the retried `web_get` return
`False` after a single invocation of its body (`num_calls` is 1, not 3)
and with zero inter-attempt sleeps — the retry wrapper never re-invokes
the operation, contrary to the claim that the soft-block is retried like
a driver error up to the 3-attempt cap. -/
theorem webget_captcha_counterexample :
    (webGetRetried captchaOuts (fun _ _ => none) cexState).1.numCalls = 1 ∧
    (webGetRetried captchaOuts (fun _ _ => none) cexState).2
      = (some (Except.ok false), 0) ∧
    ¬ ((webGetRetried captchaOuts (fun _ _ => none) cexState).1.numCalls = 3) := by
  refine ⟨rfl, rfl, by decide⟩

/-- C1 amended: when a navigation lands on a URL matching the
CAPTCHA/interstitial pattern, `web_get` raises the soft-block
`WebDriverException` but catches it itself in the same invocation (its
own `except WebDriverException` clause), surfacing boolean `False`
immediately; the retry wrapper observes a normal return, so it performs
no re-invocation and no delay.  (Stated for a call that does not hit the
pre-navigation rotation branch, whose `get_driver` failures are the only
exceptions that can escape to the wrapper.) -/
theorem webget_captcha_soft_block (outs : Nat → NavOutcome)
    (obs : Nat → Nat → Option String) (s : ScraperState) (url : String)
    (h0 : outs 0 = NavOutcome.success url)
    (hcap : strContains url "google.com/sorry" = true ∨
      strContains url "google.com/recaptcha" = true)
    (hrot : (s.numCalls + 1) % s.proxyRotationThreshold ≠ 0) :
    webGetRetried outs obs s
      = ({ s with numCalls := s.numCalls + 1 }, some (Except.ok false), 0) := by
  have hcap' : (strContains url "google.com/sorry" ||
      strContains url "google.com/recaptcha") = true := by
    rcases hcap with h | h <;> simp [h]
  simp [webGetRetried, retryRun, retryLoop, webGetAttempt, h0,
    webGetTryBlock, hcap', webGetHandle, hrot]

/-- Witness for the amended C1: the concrete CAPTCHA navigation on a
fresh scraper. -/
theorem webget_captcha_soft_block_witness :
    webGetRetried captchaOuts (fun _ _ => none) cexState
      = ({ cexState with numCalls := cexState.numCalls + 1 },
          some (Except.ok false), 0) :=
  webget_captcha_soft_block captchaOuts (fun _ _ => none) cexState
    "https://www.google.com/sorry/index" rfl (Or.inl rfl) (by decide)

/-- Helper: `_check_proxy_ip` never decreases the leak counter. -/
theorem checkProxyIp_retries_mono (obs : Option String) (s : ScraperState) :
    s.retries ≤ (checkProxyIpStep obs s).1.retries := by
  unfold checkProxyIpStep
  by_cases h : resolveObserved s.realIp obs == s.realIp
  · simp [h]
  · simp [h]

/-- Helper: `_configure_proxy` does not touch the leak counter. -/
theorem configureProxy_retries_eq (s : ScraperState) :
    (configureProxyStep s).1.retries = s.retries := by
  unfold configureProxyStep nextProxySel
  cases h : s.proxyList[s.currentProxyIndex]? <;> simp [h]

/-- Helper: one `get_driver` attempt never decreases the leak counter. -/
theorem getDriverAttempt_retries_mono (obs : Option String) (s : ScraperState) :
    s.retries ≤ (getDriverAttempt obs s).1.retries := by
  unfold getDriverAttempt
  by_cases h : s.numProxies > 0
  · rw [if_pos h]
    rcases hc : configureProxyStep s with ⟨s1, r⟩
    have he : s1.retries = s.retries := by
      have h2 := configureProxy_retries_eq s
      rw [hc] at h2
      exact h2
    rcases r with e | cred
    · simp [he]
    · simp only []
      have h3 := checkProxyIp_retries_mono obs { s1 with driverGen := s1.driverGen + 1 }
      simp only at h3
      omega
  · rw [if_neg h]

/-- Helper: wrapping a leak-counter-monotone operation in the retry loop
keeps it monotone. -/
theorem retryLoop_retries_mono {A : Type}
    (op : Nat → ScraperState → ScraperState × Except PyError A)
    (hop : ∀ n st, st.retries ≤ (op n st).1.retries) :
    ∀ (remaining attempts sleeps : Nat) (s : ScraperState),
      s.retries ≤ (retryLoop op attempts sleeps s remaining).1.retries := by
  intro remaining
  induction remaining with
  | zero =>
    intro attempts sleeps s
    simp [retryLoop]
  | succ remaining ih =>
    intro attempts sleeps s
    have h1 := hop attempts s
    rw [retryLoop]
    rcases hop' : op attempts s with ⟨s', r⟩
    rw [hop'] at h1
    rcases r with e | a
    · by_cases hr : remaining = 0
      · simp only [hr, if_pos]
        exact h1
      · simp only [hr, if_neg, reduceIte]
        exact le_trans h1 (ih (attempts + 1) (sleeps + 1) s')
    · exact h1

/-- Helper: one `web_get` attempt never decreases the leak counter. -/
theorem webGetAttempt_retries_mono (out : NavOutcome)
    (obs : Nat → Option String) (s : ScraperState) :
    s.retries ≤ (webGetAttempt out obs s).1.retries := by
  by_cases h : (s.numCalls + 1) % s.proxyRotationThreshold = 0
  · simp only [webGetAttempt, h]
    have h2 := retryLoop_retries_mono (fun n st => getDriverAttempt (obs n) st)
      (fun n st => getDriverAttempt_retries_mono (obs n) st) 3 0 0
      { s with numCalls := s.numCalls + 1 }
    simpa [getDriverRetried, retryRun] using h2
  · simp [webGetAttempt, h]

/-- Helper: every lifetime event keeps the leak counter monotone. -/
theorem stepEvent_retries_mono (s : ScraperState) (e : Event) :
    s.retries ≤ (stepEvent s e).retries := by
  cases e with
  | nav outs obs =>
    have h2 := retryLoop_retries_mono
      (fun n st => match webGetAttempt (outs n) (obs n) st with
        | (st', _, r) => (st', r))
      (fun n st => by
        have hm := webGetAttempt_retries_mono (outs n) (obs n) st
        rcases hw : webGetAttempt (outs n) (obs n) st with ⟨st', b, r⟩
        rw [hw] at hm
        simpa [hw] using hm)
      3 0 0 s
    simpa [stepEvent, webGetRetried, retryRun] using h2
  | newSession obs =>
    have h2 := retryLoop_retries_mono (fun n st => getDriverAttempt (obs n) st)
      (fun n st => getDriverAttempt_retries_mono (obs n) st) 3 0 0 s
    simpa [stepEvent, getDriverRetried, retryRun] using h2
  | checkIp obs =>
    simpa [stepEvent] using checkProxyIp_retries_mono obs s

/-- C10 (implicit): the leak-retry counter is 0 at construction, never
decreases over any lifetime of navigations, session creations and proxy
checks — detections accumulate over the whole lifetime, leak-free
stretches included — and once the accumulated count exceeds the pool
size, every further leak detection raises the fatal
`Exception "All proxies are down"` instead of the recoverable leak
signal. -/
theorem leak_counter_cumulative :
    (∀ (pl : List String) (t : Nat) (ip : String),
      (initState pl t ip).retries = 0) ∧
    (∀ (s : ScraperState) (evs : List Event),
      s.retries ≤ (runEvents s evs).retries) ∧
    (∀ (s : ScraperState) (obs : Option String),
      s.numProxies < s.retries →
      resolveObserved s.realIp obs = s.realIp →
      (checkProxyIpStep obs s).2
        = Except.error (PyError.otherError "All proxies are down")) := by
  refine ⟨fun pl t ip => rfl, ?_, ?_⟩
  · intro s evs
    induction evs generalizing s with
    | nil => simp [runEvents]
    | cons e rest ih =>
      calc s.retries ≤ (stepEvent s e).retries := stepEvent_retries_mono s e
        _ ≤ (runEvents (stepEvent s e) rest).retries := ih (stepEvent s e)
        _ = (runEvents s (e :: rest)).retries := rfl
  · intro s obs hgt hobs
    unfold checkProxyIpStep
    rw [hobs]
    have hle : ¬ (s.retries + 1 ≤ s.numProxies) := by omega
    simp [hle]

/-- Witness for C10: a fresh scraper has a zero counter, a one-event
lifetime keeps it monotone, and a scraper whose counter (3) exceeds its
pool size (2) gets the fatal error on the next detection. -/
theorem leak_counter_cumulative_witness :
    (initState ["h1:1", "h2:2"] 6 "198.51.100.9").retries = 0 ∧
    (initState ["h1:1", "h2:2"] 6 "198.51.100.9").retries
      ≤ (runEvents (initState ["h1:1", "h2:2"] 6 "198.51.100.9")
          [Event.checkIp (some "198.51.100.9")]).retries ∧
    (checkProxyIpStep (some "198.51.100.9") exhaustedState).2
      = Except.error (PyError.otherError "All proxies are down") :=
  ⟨leak_counter_cumulative.1 ["h1:1", "h2:2"] 6 "198.51.100.9",
   leak_counter_cumulative.2.1 (initState ["h1:1", "h2:2"] 6 "198.51.100.9")
     [Event.checkIp (some "198.51.100.9")],
   leak_counter_cumulative.2.2 exhaustedState (some "198.51.100.9")
     (by decide) rfl⟩

/-- C4 (code bug): for a bare filename — including the constructor
default `"cookies.pkl"` and the Uber subclass's `"uber_cookies.pkl"` —
`os.path.dirname` yields the empty string and
`os.makedirs("", exist_ok=True)` raises `FileNotFoundError`, so
`save_cookies` raises instead of succeeding. -/
theorem save_cookies_bare_filename_raises :
    dirname "cookies.pkl" = "" ∧
    saveCookies emptyFS "cookies.pkl" []
      = Except.error (PyError.fileNotFoundError "") ∧
    saveCookies emptyFS "uber_cookies.pkl" []
      = Except.error (PyError.fileNotFoundError "") :=
  ⟨rfl, rfl, rfl⟩

/-- Helper: the `load_cookies` loop applies exactly the expiry-stripped
image of the unpickled list, in order. -/
theorem applyCookies_eq_map (cs : List Cookie) :
    ∀ applied, applyCookies applied cs = applied ++ cs.map stripExpiry := by
  induction cs with
  | nil => intro applied; simp [applyCookies]
  | cons c rest ih =>
    intro applied
    rw [applyCookies, ih]
    simp

/-- C9: after a successful `save_cookies`, `load_cookies` applies to the
session exactly the saved cookies in order, each equal to the original
minus its expiry attribute — no cookie dropped or added. -/
theorem cookie_round_trip (fs fs' : FileSystem) (path : String)
    (cookies : List Cookie)
    (hsave : saveCookies fs path cookies = Except.ok fs') :
    loadCookies fs' path = cookies.map stripExpiry ∧
    (loadCookies fs' path).length = cookies.length := by
  have happ : applyCookies [] cookies = cookies.map stripExpiry := by
    simpa using applyCookies_eq_map cookies []
  unfold saveCookies at hsave
  rcases hmk : makedirs fs (dirname path) with e | fs1 <;> rw [hmk] at hsave
  · simp at hsave
  · injection hsave with hfs
    have hload : loadCookies fs' path = applyCookies [] cookies := by
      rw [← hfs]
      simp [loadCookies, readFile]
    rw [hload, happ]
    simp

/-- Witness for C9 at a concrete save/load round trip through
`"data/uber_cookies.pkl"`. -/
theorem cookie_round_trip_witness :
    loadCookies wfsAfter "data/uber_cookies.pkl" = wcookies.map stripExpiry ∧
    (loadCookies wfsAfter "data/uber_cookies.pkl").length = wcookies.length :=
  cookie_round_trip emptyFS wfsAfter "data/uber_cookies.pkl" wcookies rfl

end Scraper
